import Mathlib

/-!
Verification of the GAM access-granting service.

This file gives a shallow embedding of the repository's core logic:
* `app/gam.py` — the idempotent Administrator-grant workflow
  (`get_admin_role_id`, `find_user_by_email`, `create_user_as_admin`,
  `update_user_role`, `grant_admin_for_email`), network enumeration
  (`_fetch_networks_from_api`) and the TTL cache
  (`list_accessible_networks_cached`).
* `app/main.py` — the batch grant endpoint (`grant_access`), the
  date-range resolver (`resolve_date_range`, in its two variants:
  the buggy one in `main.py` and the fixed one in
  `reporting_schemas.py`) and the reporting stubs
  (`fetch_summary_metrics`, `fetch_location_breakdown`,
  `fetch_timeseries`).

The remote Google Ad Manager backend is modelled as an explicit state
(`Network`): a list of roles, a list of users, and a counter supplying
the platform-assigned id of the next created user.  Remote calls become
pure state transformers; a raised exception becomes an `Except` error
paired with the unchanged state (no remote mutation happened before the
raise).
-/

/-- A role record as returned by `UserService.getAllRoles()`.  The
Python code reads `name` and `id` defensively via `_get` (either may be
absent), so both fields are `Option`-valued here. -/
structure Role where
  name : Option String
  id : Option Int
deriving DecidableEq

/-- A user record held by the remote platform.  `grant_admin_for_email`
reads `id`, `email` and `roleId`; `createUsers` additionally sets
`name` (the display name) and `isActive`. -/
structure User where
  id : Int
  email : String
  displayName : String
  roleId : Int
  isActive : Bool
deriving DecidableEq

/-- The state of one GAM network as seen through `UserService`:
its roles, its users, and the id the platform will assign to the next
created user. -/
structure Network where
  roles : List Role
  users : List User
  nextUserId : Int
deriving DecidableEq

/-- Errors raised by the grant workflow in `app/gam.py`.
`roleNotFound` is the `RuntimeError("Administrator role not found in
this network.")` of `get_admin_role_id`. -/
inductive GamError
  | roleNotFound
deriving DecidableEq

/-- The `status` string of a successful grant. -/
inductive Status
  | created
  | upgraded
  | alreadyAdmin
deriving DecidableEq

/-- The dict returned by `grant_admin_for_email`:
`{"status": ..., "userId": ..., "roleId": ...}`. -/
structure GrantOut where
  status : Status
  userId : Int
  roleId : Int
deriving DecidableEq

/-- Embedding of `email.split("@")[0]` from `create_user_as_admin`:
the text before the first `@` (the whole string when there is no `@`). -/
def localPart (email : String) : String :=
  String.mk (email.data.takeWhile (fun c => c ≠ '@'))

/-- Embedding of `get_admin_role_id` (`app/gam.py:68-80`): scan the
roles in order; at the first role whose `name` is `"Administrator"`,
return its `id` — unless the `id` field is missing, in which case the
loop `break`s and the role-not-found error is raised.  If no role
matches, the same error is raised. -/
def get_admin_role_id : List Role → Except GamError Int
  | [] => .error .roleNotFound
  | r :: rs =>
    if r.name = some "Administrator" then
      match r.id with
      | none => .error .roleNotFound
      | some rid => .ok rid
    else
      get_admin_role_id rs

/-- Embedding of `find_user_by_email` (`app/gam.py:83-87`): the PQL
statement `WHERE email = :val` restricts to users with that exact
email, and `users[0] if users else None` takes the first match. -/
def find_user_by_email (users : List User) (email : String) : Option User :=
  users.find? (fun u => u.email == email)

/-- Embedding of `create_user_as_admin` (`app/gam.py:90-106`): the
remote `createUsers` call stores a new user with display name
`email.split("@")[0]`, the given email and role, and `isActive = true`;
the platform assigns the next fresh id.  Returns the created user and
the new backend state. -/
def create_user_as_admin (st : Network) (email : String) (role_id : Int) :
    User × Network :=
  let newUser : User :=
    { id := st.nextUserId
      email := email
      displayName := localPart email
      roleId := role_id
      isActive := true }
  (newUser,
   { st with users := st.users ++ [newUser], nextUserId := st.nextUserId + 1 })

/-- The per-user effect of the remote `updateUsers` call issued by
`update_user_role`: only the user with the given id has its `roleId`
replaced; every other user, and every other field, is untouched. -/
def updateRole (user_id role_id : Int) (u : User) : User :=
  if u.id = user_id then { u with roleId := role_id } else u

/-- Embedding of `update_user_role` (`app/gam.py:109-123`): the remote
applies the role change to the user with the given id and returns the
updated record (`updated[0]`). -/
def update_user_role (st : Network) (user_id role_id : Int) :
    User × Network :=
  let users' := st.users.map (updateRole user_id role_id)
  let returned :=
    (users'.find? (fun u => u.id == user_id)).getD
      { id := user_id, email := "", displayName := "",
        roleId := role_id, isActive := true }
  (returned, { st with users := users' })

/-- Embedding of `grant_admin_for_email` (`app/gam.py:126-164`).
Resolve the Administrator role id, look the user up by email, then:
create as Administrator when absent (`"created"`), update the role when
present with a different role (`"upgraded"`), otherwise do nothing
(`"already-admin"`).  A raised error leaves the backend unchanged. -/
def grant_admin_for_email (st : Network) (email : String) :
    Except GamError GrantOut × Network :=
  match get_admin_role_id st.roles with
  | .error e => (.error e, st)
  | .ok admin_role_id =>
    match find_user_by_email st.users email with
    | none =>
      let c := create_user_as_admin st email admin_role_id
      (.ok { status := .created, userId := c.1.id, roleId := admin_role_id },
       c.2)
    | some existing =>
      if existing.roleId ≠ admin_role_id then
        let u := update_user_role st existing.id admin_role_id
        (.ok { status := .upgraded, userId := u.1.id, roleId := admin_role_id },
         u.2)
      else
        (.ok { status := .alreadyAdmin, userId := existing.id,
               roleId := admin_role_id }, st)

/-! Helper lemmas about the grant workflow. -/

theorem updateRole_preserves_email (user_id role_id : Int) (u : User) :
    (updateRole user_id role_id u).email = u.email := by
  unfold updateRole; split <;> rfl

theorem updateRole_preserves_id (user_id role_id : Int) (u : User) :
    (updateRole user_id role_id u).id = u.id := by
  unfold updateRole; split <;> simp_all

theorem updateRole_self (role_id : Int) (u : User) :
    updateRole u.id role_id u = { u with roleId := role_id } := by
  simp [updateRole]

theorem find_user_by_email_map_updateRole (users : List User)
    (email : String) (user_id role_id : Int) :
    find_user_by_email (users.map (updateRole user_id role_id)) email =
      (find_user_by_email users email).map (updateRole user_id role_id) := by
  unfold find_user_by_email
  rw [List.find?_map]
  have hpf : ((fun u : User => u.email == email) ∘ updateRole user_id role_id) =
      (fun u : User => u.email == email) := by
    funext v
    simp [Function.comp, updateRole_preserves_email]
  rw [hpf]

theorem update_user_role_returned_id (st : Network) (user_id role_id : Int) :
    (update_user_role st user_id role_id).1.id = user_id := by
  unfold update_user_role
  cases hw : (st.users.map (updateRole user_id role_id)).find?
      (fun u => u.id == user_id) with
  | none => simp [hw]
  | some w =>
    have hp := List.find?_some hw
    simp only [beq_iff_eq] at hp
    simp [hw, hp]

theorem find_user_by_email_some (users : List User) (email : String)
    (u : User) (h : find_user_by_email users email = some u) :
    u ∈ users ∧ u.email = email := by
  unfold find_user_by_email at h
  refine ⟨List.mem_of_find?_eq_some h, ?_⟩
  have hp := List.find?_some h
  simpa [beq_iff_eq] using hp

/-- C1: idempotence of the grant operation.  If one call succeeds
(with any of the three statuses), an immediately following call with
the same email on the resulting backend state succeeds with status
`already-admin`, returns the same `userId` and `roleId`, changes
nothing, and the backend holds a user with that email carrying the
Administrator role id. -/
theorem grant_admin_idempotent (st : Network) (email : String)
    (r : GrantOut) (st1 : Network)
    (h : grant_admin_for_email st email = (.ok r, st1)) :
    grant_admin_for_email st1 email =
      (.ok { status := .alreadyAdmin, userId := r.userId,
             roleId := r.roleId }, st1) ∧
    ∃ u, u ∈ st1.users ∧ u.email = email ∧ u.roleId = r.roleId := by
  unfold grant_admin_for_email at h
  cases hr : get_admin_role_id st.roles with
  | error e => rw [hr] at h; simp at h
  | ok rid =>
    rw [hr] at h
    cases hf : find_user_by_email st.users email with
    | none =>
      rw [hf] at h
      simp only [Prod.mk.injEq, Except.ok.injEq] at h
      obtain ⟨h1, h2⟩ := h
      subst h1 h2
      have hroles : (create_user_as_admin st email rid).2.roles = st.roles := by
        simp [create_user_as_admin]
      have husers : (create_user_as_admin st email rid).2.users =
          st.users ++ [(create_user_as_admin st email rid).1] := by
        simp [create_user_as_admin]
      have hmail : (create_user_as_admin st email rid).1.email = email := by
        simp [create_user_as_admin]
      have hrole1 : (create_user_as_admin st email rid).1.roleId = rid := by
        simp [create_user_as_admin]
      have hfind2 : find_user_by_email
          ((create_user_as_admin st email rid).2.users) email =
          some (create_user_as_admin st email rid).1 := by
        rw [husers]
        unfold find_user_by_email at hf ⊢
        rw [List.find?_append, hf]
        simp [hmail]
      constructor
      · simp only [grant_admin_for_email, hroles, hr, hfind2, hrole1]
        simp
      · exact ⟨(create_user_as_admin st email rid).1,
          by rw [husers]; simp, hmail, hrole1⟩
    | some u =>
      rw [hf] at h
      simp only [ne_eq] at h
      by_cases hne : u.roleId = rid
      · rw [if_neg (not_not_intro hne)] at h
        simp only [Prod.mk.injEq, Except.ok.injEq] at h
        obtain ⟨h1, h2⟩ := h
        subst h1 h2
        obtain ⟨hmem, hemail⟩ := find_user_by_email_some st.users email u hf
        constructor
        · simp only [grant_admin_for_email, hr, hf]
          rw [if_neg (not_not_intro hne)]
        · exact ⟨u, hmem, hemail, hne⟩
      · rw [if_pos hne] at h
        simp only [Prod.mk.injEq, Except.ok.injEq] at h
        obtain ⟨h1, h2⟩ := h
        subst h1 h2
        obtain ⟨hmem, hemail⟩ := find_user_by_email_some st.users email u hf
        have hroles : (update_user_role st u.id rid).2.roles = st.roles := by
          simp [update_user_role]
        have husers : (update_user_role st u.id rid).2.users =
            st.users.map (updateRole u.id rid) := by
          simp [update_user_role]
        have hfind2 : find_user_by_email
            ((update_user_role st u.id rid).2.users) email =
            some { u with roleId := rid } := by
          rw [husers, find_user_by_email_map_updateRole, hf]
          simp [updateRole_self]
        constructor
        · simp only [grant_admin_for_email, hroles, hr, hfind2]
          rw [if_neg (not_not_intro rfl)]
          simp [update_user_role_returned_id]
        · refine ⟨{ u with roleId := rid }, ?_, hemail, ?_⟩
          · rw [husers, ← updateRole_self rid u]
            exact List.mem_map_of_mem _ hmem
          · simp [update_user_role_returned_id]

/-- Witness for C1 at a concrete backend: a network with an
Administrator role and no users; the first call creates, the second
reports already-admin with the same ids and state. -/
theorem grant_admin_idempotent_witness :
    grant_admin_for_email
      ⟨[⟨some "Administrator", some 7⟩], [], 100⟩ "alice@example.com" =
      (.ok ⟨.created, 100, 7⟩,
       ⟨[⟨some "Administrator", some 7⟩],
        [⟨100, "alice@example.com", "alice", 7, true⟩], 101⟩) ∧
    grant_admin_for_email
      ⟨[⟨some "Administrator", some 7⟩],
       [⟨100, "alice@example.com", "alice", 7, true⟩], 101⟩
      "alice@example.com" =
      (.ok ⟨.alreadyAdmin, 100, 7⟩,
       ⟨[⟨some "Administrator", some 7⟩],
        [⟨100, "alice@example.com", "alice", 7, true⟩], 101⟩) :=
  ⟨rfl,
   (grant_admin_idempotent
     ⟨[⟨some "Administrator", some 7⟩], [], 100⟩ "alice@example.com"
     ⟨.created, 100, 7⟩
     ⟨[⟨some "Administrator", some 7⟩],
      [⟨100, "alice@example.com", "alice", 7, true⟩], 101⟩ rfl).1⟩

theorem get_admin_role_id_eq_error (roles : List Role)
    (h : ∀ r ∈ roles, r.name ≠ some "Administrator") :
    get_admin_role_id roles = .error .roleNotFound := by
  induction roles with
  | nil => rfl
  | cons a as ih =>
    simp only [get_admin_role_id]
    rw [if_neg (h a (by simp))]
    exact ih (fun x hx => h x (by simp [hx]))

theorem get_admin_role_id_skip (pre rest : List Role)
    (h : ∀ r ∈ pre, r.name ≠ some "Administrator") :
    get_admin_role_id (pre ++ rest) = get_admin_role_id rest := by
  induction pre with
  | nil => rfl
  | cons a as ih =>
    rw [List.cons_append]
    simp only [get_admin_role_id]
    rw [if_neg (h a (by simp))]
    exact ih (fun x hx => h x (by simp [hx]))

/-- C3: when no role of the network is named exactly `"Administrator"`,
the grant operation fails with the role-not-found error and the backend
state is unchanged — no user is created or modified, since the error is
raised before any `createUsers` or `updateUsers` call. -/
theorem grant_admin_role_not_found (st : Network) (email : String)
    (h : ∀ r ∈ st.roles, r.name ≠ some "Administrator") :
    grant_admin_for_email st email = (.error .roleNotFound, st) := by
  have herr := get_admin_role_id_eq_error st.roles h
  simp only [grant_admin_for_email, herr]

/-- Witness for C3: a network whose only role is `"Trafficker"`; the
grant fails with role-not-found and leaves the (nonempty) user list and
the whole state untouched. -/
theorem grant_admin_role_not_found_witness :
    (∀ r ∈ ([⟨some "Trafficker", some 3⟩] : List Role),
        r.name ≠ some "Administrator") ∧
    grant_admin_for_email
      ⟨[⟨some "Trafficker", some 3⟩], [⟨1, "bob@x.com", "bob", 3, true⟩], 10⟩
      "bob@x.com" =
      (.error .roleNotFound,
       ⟨[⟨some "Trafficker", some 3⟩], [⟨1, "bob@x.com", "bob", 3, true⟩],
        10⟩) :=
  ⟨by decide,
   grant_admin_role_not_found
     ⟨[⟨some "Trafficker", some 3⟩], [⟨1, "bob@x.com", "bob", 3, true⟩], 10⟩
     "bob@x.com" (by decide)⟩

/-- C10: if the first role named `"Administrator"` has a missing `id`
field, the scan in `get_admin_role_id` stops there (the Python loop
`break`s) and the role-not-found error is raised, even though a later
role also named `"Administrator"` carries a valid id `k`; consequently
`grant_admin_for_email` fails with the same error and leaves the
backend unchanged. -/
theorem get_admin_role_id_stops_at_missing_id (pre post : List Role)
    (k : Int) (users : List User) (nid : Int) (email : String)
    (hpre : ∀ r ∈ pre, r.name ≠ some "Administrator") :
    get_admin_role_id
        (pre ++ ⟨some "Administrator", none⟩ ::
          ⟨some "Administrator", some k⟩ :: post) = .error .roleNotFound ∧
    grant_admin_for_email
        ⟨pre ++ ⟨some "Administrator", none⟩ ::
          ⟨some "Administrator", some k⟩ :: post, users, nid⟩ email =
      (.error .roleNotFound,
       ⟨pre ++ ⟨some "Administrator", none⟩ ::
          ⟨some "Administrator", some k⟩ :: post, users, nid⟩) := by
  have h1 : get_admin_role_id
      (pre ++ ⟨some "Administrator", none⟩ ::
        ⟨some "Administrator", some k⟩ :: post) = .error .roleNotFound := by
    rw [get_admin_role_id_skip pre _ hpre]
    rfl
  exact ⟨h1, by simp only [grant_admin_for_email, h1]⟩

/-- Witness for C10: the first Administrator-named role has no id, a
second one has id 9; the scan fails anyway. -/
theorem get_admin_role_id_stops_at_missing_id_witness :
    (∀ r ∈ ([⟨some "SalesRep", some 2⟩] : List Role),
        r.name ≠ some "Administrator") ∧
    get_admin_role_id
        [⟨some "SalesRep", some 2⟩, ⟨some "Administrator", none⟩,
         ⟨some "Administrator", some 9⟩] = .error .roleNotFound ∧
    grant_admin_for_email
        ⟨[⟨some "SalesRep", some 2⟩, ⟨some "Administrator", none⟩,
          ⟨some "Administrator", some 9⟩], [], 5⟩ "eve@x.com" =
      (.error .roleNotFound,
       ⟨[⟨some "SalesRep", some 2⟩, ⟨some "Administrator", none⟩,
         ⟨some "Administrator", some 9⟩], [], 5⟩) :=
  ⟨by decide,
   (get_admin_role_id_stops_at_missing_id [⟨some "SalesRep", some 2⟩] []
     9 [] 5 "eve@x.com" (by decide)).1,
   (get_admin_role_id_stops_at_missing_id [⟨some "SalesRep", some 2⟩] []
     9 [] 5 "eve@x.com" (by decide)).2⟩

/-- C7: when no user with the email exists, the grant creates exactly
one new user — display name equal to the email's local part, active,
with the Administrator role id — appends it to the user list, and
returns `"created"` with the new user's id and that role id. -/
theorem grant_admin_creates (st : Network) (email : String) (rid : Int)
    (hrole : get_admin_role_id st.roles = .ok rid)
    (hnone : ∀ u ∈ st.users, u.email ≠ email) :
    grant_admin_for_email st email =
      (.ok { status := .created, userId := st.nextUserId, roleId := rid },
       { st with
         users := st.users ++
           [({ id := st.nextUserId, email := email,
               displayName := localPart email, roleId := rid,
               isActive := true } : User)],
         nextUserId := st.nextUserId + 1 }) := by
  have hf : find_user_by_email st.users email = none := by
    unfold find_user_by_email
    rw [List.find?_eq_none]
    intro x hx
    simp [hnone x hx]
  simp only [grant_admin_for_email, hrole, hf, create_user_as_admin]

/-- Witness for C7: creating `bob@corp.com` in an empty network yields
a user with display name `"bob"`, role 4, active, id 50. -/
theorem grant_admin_creates_witness :
    get_admin_role_id [⟨some "Administrator", some 4⟩] = .ok 4 ∧
    (∀ u ∈ ([] : List User), u.email ≠ "bob@corp.com") ∧
    grant_admin_for_email ⟨[⟨some "Administrator", some 4⟩], [], 50⟩
      "bob@corp.com" =
      (.ok ⟨.created, 50, 4⟩,
       ⟨[⟨some "Administrator", some 4⟩],
        [⟨50, "bob@corp.com", "bob", 4, true⟩], 51⟩) :=
  ⟨rfl, by decide,
   grant_admin_creates ⟨[⟨some "Administrator", some 4⟩], [], 50⟩
     "bob@corp.com" 4 rfl (by decide)⟩

/-- C8: when a user with the email exists with a role different from
the Administrator role id, the grant updates exactly that user's
`roleId` and nothing else — email, display name and active flag are
preserved, and every user with a different id is untouched — and
returns `"upgraded"` with the user's id and the Administrator role
id. -/
theorem grant_admin_upgrades (st : Network) (email : String) (rid : Int)
    (u : User)
    (hrole : get_admin_role_id st.roles = .ok rid)
    (hfind : find_user_by_email st.users email = some u)
    (hne : u.roleId ≠ rid) :
    grant_admin_for_email st email =
      (.ok { status := .upgraded, userId := u.id, roleId := rid },
       { st with users := st.users.map (updateRole u.id rid) }) ∧
    updateRole u.id rid u = { u with roleId := rid } ∧
    ∀ v : User,
      (updateRole u.id rid v).id = v.id ∧
      (updateRole u.id rid v).email = v.email ∧
      (updateRole u.id rid v).displayName = v.displayName ∧
      (updateRole u.id rid v).isActive = v.isActive ∧
      (v.id ≠ u.id → updateRole u.id rid v = v) := by
  refine ⟨?_, updateRole_self rid u, ?_⟩
  · simp only [grant_admin_for_email, hrole, hfind, ne_eq]
    rw [if_pos hne]
    rw [update_user_role_returned_id]
    simp [update_user_role]
  · intro v
    refine ⟨updateRole_preserves_id _ _ _, updateRole_preserves_email _ _ _,
      ?_, ?_, ?_⟩
    · unfold updateRole; split <;> rfl
    · unfold updateRole; split <;> rfl
    · intro hv
      unfold updateRole
      rw [if_neg hv]

/-- Witness for C8: `carol@x.com` exists with role 2; a grant upgrades
her to role 4, keeping every other field. -/
theorem grant_admin_upgrades_witness :
    get_admin_role_id [⟨some "Administrator", some 4⟩] = .ok 4 ∧
    find_user_by_email [⟨9, "carol@x.com", "carol", 2, true⟩]
      "carol@x.com" = some ⟨9, "carol@x.com", "carol", 2, true⟩ ∧
    grant_admin_for_email
      ⟨[⟨some "Administrator", some 4⟩],
       [⟨9, "carol@x.com", "carol", 2, true⟩], 50⟩ "carol@x.com" =
      (.ok ⟨.upgraded, 9, 4⟩,
       ⟨[⟨some "Administrator", some 4⟩],
        [⟨9, "carol@x.com", "carol", 4, true⟩], 50⟩) :=
  ⟨rfl, rfl,
   (grant_admin_upgrades
     ⟨[⟨some "Administrator", some 4⟩],
      [⟨9, "carol@x.com", "carol", 2, true⟩], 50⟩ "carol@x.com" 4
     ⟨9, "carol@x.com", "carol", 2, true⟩ rfl rfl (by decide)).1⟩

/-! Network enumeration and the TTL cache (`app/gam.py:168-216`). -/

/-- A `networkCode` value as it comes off the wire: the Python code
applies `str(...)` to it, so it may be a number or already a string. -/
inductive CodeVal
  | intVal : Int → CodeVal
  | strVal : String → CodeVal
deriving DecidableEq

/-- Embedding of Python's `str(code)`. -/
def CodeVal.toStr : CodeVal → String
  | .intVal n => toString n
  | .strVal s => s

/-- A raw entry of `NetworkService.getAllNetworks()`: both fields are
read defensively (`n.get(...)` / `getattr(..., None)`), so either may
be absent. -/
structure RawNetwork where
  networkCode : Option CodeVal
  displayName : Option String
deriving DecidableEq

/-- A normalized entry `{"networkCode": str, "displayName": ...}`. -/
structure NetworkEntry where
  networkCode : String
  displayName : Option String
deriving DecidableEq

/-- Embedding of the normalization loop of `_fetch_networks_from_api`
(`app/gam.py:168-193`): entries whose `networkCode` is missing are
skipped; the rest are emitted in order with the code converted to a
string. -/
def _fetch_networks_from_api : List RawNetwork → List NetworkEntry
  | [] => []
  | n :: rest =>
    match n.networkCode with
    | some code =>
      { networkCode := code.toStr, displayName := n.displayName } ::
        _fetch_networks_from_api rest
    | none => _fetch_networks_from_api rest

/-- C9: the fresh-fetch path maps each raw entry that has a network
code, in input order, to one normalized record with the code converted
to a string, and drops the entries without a code — i.e. it is the
`filterMap` of the per-entry normalization, and its length is the
number of entries carrying a code. -/
theorem fetch_networks_normalizes (ns : List RawNetwork) :
    _fetch_networks_from_api ns =
      ns.filterMap (fun n => n.networkCode.map
        (fun c => ({ networkCode := c.toStr,
                     displayName := n.displayName } : NetworkEntry))) ∧
    (_fetch_networks_from_api ns).length =
      (ns.filter (fun n => n.networkCode.isSome)).length := by
  induction ns with
  | nil => exact ⟨rfl, rfl⟩
  | cons n rest ih =>
    obtain ⟨ih1, ih2⟩ := ih
    rw [ih1] at ih2
    cases hc : n.networkCode with
    | none =>
      refine ⟨?_, ?_⟩ <;>
        simp [_fetch_networks_from_api, hc, ih1, ih2,
          List.filterMap_cons, List.filter_cons]
    | some c =>
      refine ⟨?_, ?_⟩ <;>
        simp [_fetch_networks_from_api, hc, ih1, ih2,
          List.filterMap_cons, List.filter_cons]

/-- The 24-hour TTL, `NETWORK_CACHE_TTL_SECONDS = 24 * 60 * 60`.
Timestamps are modelled as rationals (Python's `time.time()` floats). -/
def NETWORK_CACHE_TTL_SECONDS : ℚ := 24 * 60 * 60

/-- The module-level cache slot: `_network_cache` and
`_network_cache_ts`, both `None` at process start. -/
structure CacheState where
  network_cache : Option (List NetworkEntry)
  network_cache_ts : Option ℚ
deriving DecidableEq

/-- Embedding of `list_accessible_networks_cached`
(`app/gam.py:196-216`).  `now` is the sampled clock and `apiNetworks`
is what the remote `getAllNetworks()` would return on this call.  The
returned `Bool` records whether the remote enumeration was invoked
(the call counter of the spec's test double). -/
def list_accessible_networks_cached (force_refresh : Bool) (now : ℚ)
    (apiNetworks : List RawNetwork) (st : CacheState) :
    List NetworkEntry × CacheState × Bool :=
  match st.network_cache, st.network_cache_ts with
  | some cache, some ts =>
    if force_refresh = false ∧ now - ts < NETWORK_CACHE_TTL_SECONDS then
      (cache, st, false)
    else
      let networks := _fetch_networks_from_api apiNetworks
      (networks, ⟨some networks, some now⟩, true)
  | _, _ =>
    let networks := _fetch_networks_from_api apiNetworks
    (networks, ⟨some networks, some now⟩, true)

/-- C5: cache behaviour of `list_accessible_networks_cached`.  With
`force_refresh = false`, an existing cache entry and an age below the
TTL, the cached list is returned unchanged without invoking the remote
enumeration; in every other situation — `force_refresh = true` (even
with a fresh entry), an empty cache slot, a missing timestamp, or an
expired entry — the remote enumeration is invoked, the cache contents
and timestamp are replaced wholesale, and the new list is returned. -/
theorem list_networks_cache_spec (force_refresh : Bool) (now : ℚ)
    (apiNetworks : List RawNetwork) (st : CacheState) :
    (∀ cache ts, force_refresh = false → st.network_cache = some cache →
      st.network_cache_ts = some ts →
      now - ts < NETWORK_CACHE_TTL_SECONDS →
      list_accessible_networks_cached force_refresh now apiNetworks st =
        (cache, st, false)) ∧
    (force_refresh = true →
      list_accessible_networks_cached force_refresh now apiNetworks st =
        (_fetch_networks_from_api apiNetworks,
         ⟨some (_fetch_networks_from_api apiNetworks), some now⟩, true)) ∧
    (st.network_cache = none →
      list_accessible_networks_cached force_refresh now apiNetworks st =
        (_fetch_networks_from_api apiNetworks,
         ⟨some (_fetch_networks_from_api apiNetworks), some now⟩, true)) ∧
    (st.network_cache_ts = none →
      list_accessible_networks_cached force_refresh now apiNetworks st =
        (_fetch_networks_from_api apiNetworks,
         ⟨some (_fetch_networks_from_api apiNetworks), some now⟩, true)) ∧
    (∀ ts, st.network_cache_ts = some ts →
      NETWORK_CACHE_TTL_SECONDS ≤ now - ts →
      list_accessible_networks_cached force_refresh now apiNetworks st =
        (_fetch_networks_from_api apiNetworks,
         ⟨some (_fetch_networks_from_api apiNetworks), some now⟩, true)) := by
  obtain ⟨oc, ots⟩ := st
  cases oc with
  | none =>
    cases ots <;>
      exact ⟨fun c ts _ hc => by simp at hc,
        fun _ => rfl, fun _ => rfl, fun _ => rfl, fun ts _ _ => rfl⟩
  | some cache =>
    cases ots with
    | none =>
      exact ⟨fun c ts _ _ hts => by simp at hts,
        fun _ => rfl, fun h => by simp at h, fun _ => rfl,
        fun ts hts => by simp at hts⟩
    | some ts =>
      refine ⟨?_, ?_, ?_, ?_, ?_⟩
      · intro c ts' hfr hc hts hlt
        simp only [Option.some.injEq] at hc hts
        subst hc hts
        simp only [list_accessible_networks_cached]
        rw [if_pos ⟨hfr, hlt⟩]
      · intro hfr
        subst hfr
        simp only [list_accessible_networks_cached]
        rw [if_neg (by simp)]
      · intro h; simp at h
      · intro h; simp at h
      · intro ts' hts hge
        simp only [Option.some.injEq] at hts
        subst hts
        simp only [list_accessible_networks_cached]
        rw [if_neg (by simp [not_lt.mpr hge])]

/-- Witness for C5: with a cached list and a 50-second-old timestamp, a
plain call returns the cache without touching the remote; a
force-refresh call hits the remote and overwrites the cache. -/
theorem list_networks_cache_spec_witness :
    ((100 : ℚ) - 50 < NETWORK_CACHE_TTL_SECONDS) ∧
    list_accessible_networks_cached false 100
      [⟨some (.strVal "456"), some "NetB"⟩]
      ⟨some [⟨"123", some "NetA"⟩], some 50⟩ =
      ([⟨"123", some "NetA"⟩], ⟨some [⟨"123", some "NetA"⟩], some 50⟩,
       false) ∧
    list_accessible_networks_cached true 100
      [⟨some (.strVal "456"), some "NetB"⟩]
      ⟨some [⟨"123", some "NetA"⟩], some 50⟩ =
      ([⟨"456", some "NetB"⟩], ⟨some [⟨"456", some "NetB"⟩], some 100⟩,
       true) :=
  ⟨by norm_num [NETWORK_CACHE_TTL_SECONDS],
   (list_networks_cache_spec false 100
     [⟨some (.strVal "456"), some "NetB"⟩]
     ⟨some [⟨"123", some "NetA"⟩], some 50⟩).1
     [⟨"123", some "NetA"⟩] 50 rfl rfl rfl
     (by norm_num [NETWORK_CACHE_TTL_SECONDS]),
   ((list_networks_cache_spec true 100
     [⟨some (.strVal "456"), some "NetB"⟩]
     ⟨some [⟨"123", some "NetA"⟩], some 50⟩).2).1 rfl⟩

/-! The batch grant endpoint (`app/main.py:77-102`). -/

/-- One record of the `/grant-access` response (`GrantResult` model in
`app/main.py:54-59`). -/
structure GrantRecord where
  network : String
  status : String
  userId : Option Int
  roleId : Option Int
  error : Option String
deriving DecidableEq

/-- The `status` strings of a successful grant dict. -/
def Status.toStr : Status → String
  | .created => "created"
  | .upgraded => "upgraded"
  | .alreadyAdmin => "already-admin"

/-- Embedding of the per-network loop of `grant_access`
(`app/main.py:88-100`).  `attempt code` models
`grant_admin_for_email(build_client(network_code=code), email)` for
one network: either the returned dict, or a raised exception carrying
the message `str(e)`.  Every exception (server fault or otherwise) is
caught and turned into an `"error"` record for that network only. -/
def grant_access (attempt : String → Except String GrantOut)
    (networks : List String) : List GrantRecord :=
  networks.map (fun code =>
    match attempt code with
    | .ok out =>
      { network := code, status := out.status.toStr,
        userId := some out.userId, roleId := some out.roleId,
        error := none }
    | .error e =>
      { network := code, status := "error", userId := none,
        roleId := none, error := some e })

/-- C4: the batch grant returns exactly one record per requested
network, in input order and keyed by the network's code; a network
whose attempt raises contributes an `"error"` record carrying exactly
the exception's message, while every other network's record carries its
own success status and ids — one network's failure never disturbs the
records of the others. -/
theorem grant_access_isolates (attempt : String → Except String GrantOut)
    (networks : List String) :
    (grant_access attempt networks).length = networks.length ∧
    ∀ i code, networks.get? i = some code →
      (∀ msg, attempt code = .error msg →
        (grant_access attempt networks).get? i =
          some { network := code, status := "error", userId := none,
                 roleId := none, error := some msg }) ∧
      (∀ out, attempt code = .ok out →
        (grant_access attempt networks).get? i =
          some { network := code, status := out.status.toStr,
                 userId := some out.userId, roleId := some out.roleId,
                 error := none }) := by
  constructor
  · simp [grant_access]
  · intro i code hcode
    rw [List.get?_eq_getElem?] at hcode
    constructor
    · intro msg hmsg
      simp [grant_access, List.getElem?_map, hcode, hmsg]
    · intro out hout
      simp [grant_access, List.getElem?_map, hcode, hout]

/-- Witness for C4, the spec's three-network scenario: the second
network's attempt raises `"boom"`; the result has three records, the
middle one an error record with the non-empty message, the outer two
untouched success records. -/
theorem grant_access_isolates_witness :
    (grant_access
      (fun code => if code = "B" then .error "boom"
        else .ok ⟨.created, 1, 2⟩) ["A", "B", "C"]).length = 3 ∧
    (grant_access
      (fun code => if code = "B" then .error "boom"
        else .ok ⟨.created, 1, 2⟩) ["A", "B", "C"]).get? 1 =
      some ⟨"B", "error", none, none, some "boom"⟩ ∧
    (grant_access
      (fun code => if code = "B" then .error "boom"
        else .ok ⟨.created, 1, 2⟩) ["A", "B", "C"]).get? 0 =
      some ⟨"A", "created", some 1, some 2, none⟩ ∧
    (grant_access
      (fun code => if code = "B" then .error "boom"
        else .ok ⟨.created, 1, 2⟩) ["A", "B", "C"]).get? 2 =
      some ⟨"C", "created", some 1, some 2, none⟩ ∧
    "boom" ≠ "" :=
  ⟨(grant_access_isolates
      (fun code => if code = "B" then .error "boom"
        else .ok ⟨.created, 1, 2⟩) ["A", "B", "C"]).1,
   ((grant_access_isolates
      (fun code => if code = "B" then .error "boom"
        else .ok ⟨.created, 1, 2⟩) ["A", "B", "C"]).2 1 "B" rfl).1
     "boom" rfl,
   ((grant_access_isolates
      (fun code => if code = "B" then .error "boom"
        else .ok ⟨.created, 1, 2⟩) ["A", "B", "C"]).2 0 "A" rfl).2
     ⟨.created, 1, 2⟩ rfl,
   ((grant_access_isolates
      (fun code => if code = "B" then .error "boom"
        else .ok ⟨.created, 1, 2⟩) ["A", "B", "C"]).2 2 "C" rfl).2
     ⟨.created, 1, 2⟩ rfl,
   by decide⟩

/-! The date-range resolver.  It exists twice in the repository:
`app/main.py:125-147` (used by the reporting endpoints, with a bug in
its `last_30_days` branch) and `app/reporting_schemas.py:16-38` (the
corrected version).  Dates are modelled as Gregorian day numbers, so
`timedelta(days=n)` is subtraction of `n` and date comparison is
integer comparison. -/

abbrev Date := Int

/-- Number of leap years in `1..y`. -/
def leapCount (y : ℕ) : ℕ := y / 4 - y / 100 + y / 400

def isLeapYear (y : ℕ) : Bool :=
  (y % 4 == 0 && y % 100 != 0) || y % 400 == 0

/-- Days before month `m` in a non-leap year. -/
def monthOffset (m : ℕ) : ℕ :=
  match m with
  | 1 => 0 | 2 => 31 | 3 => 59 | 4 => 90 | 5 => 120 | 6 => 151
  | 7 => 181 | 8 => 212 | 9 => 243 | 10 => 273 | 11 => 304 | _ => 334

/-- The day number of the Gregorian date `y-m-d` (day 1 is 0001-01-01). -/
def mkDate (y m d : ℕ) : Date :=
  ((365 * (y - 1) + leapCount (y - 1) + monthOffset m +
    (if 2 < m && isLeapYear y then 1 else 0) + d : ℕ) : Int)

/-- The `DateRange` enum (`app/main.py:117-122` and
`app/reporting_schemas.py:8-13`). -/
inductive DateRange
  | today
  | yesterday
  | last_7_days
  | last_30_days
  | custom
deriving DecidableEq

/-- Errors raised by the resolvers: `invalidRange` stands for the two
`ValueError`s of the custom branch (the spec's `InvalidRange`), and
`nameError` for the `NameError` raised by `main.py`'s `last_30_days`
branch, whose `timedelta(days(29))` calls the undefined name `days`. -/
inductive ResolveError
  | invalidRange
  | nameError
deriving DecidableEq

/-- Embedding of the corrected `resolve_date_range`
(`app/reporting_schemas.py:16-38`).  `today` is injected (the Python
code samples `date.today()`). -/
def resolve_date_range (range_ : DateRange) (today : Date)
    (start_date end_date : Option Date) :
    Except ResolveError (Date × Date) :=
  match range_ with
  | .today => .ok (today, today)
  | .yesterday => .ok (today - 1, today - 1)
  | .last_7_days => .ok (today - 6, today)
  | .last_30_days => .ok (today - 29, today)
  | .custom =>
    match start_date, end_date with
    | some s, some e =>
      if s > e then .error .invalidRange else .ok (s, e)
    | _, _ => .error .invalidRange

/-- Embedding of the `resolve_date_range` in `app/main.py:125-147`, the
one actually called by the reporting endpoints.  Its `last_30_days`
branch reads `today - timedelta(days(29))`, which raises `NameError`
(`days` is not defined there); the source itself marks the line with
`# <- BUG: fix below`. -/
def resolve_date_range_main (range_ : DateRange) (today : Date)
    (start_date end_date : Option Date) :
    Except ResolveError (Date × Date) :=
  match range_ with
  | .today => .ok (today, today)
  | .yesterday => .ok (today - 1, today - 1)
  | .last_7_days => .ok (today - 6, today)
  | .last_30_days => .error .nameError
  | .custom =>
    match start_date, end_date with
    | some s, some e =>
      if s > e then .error .invalidRange else .ok (s, e)
    | _, _ => .error .invalidRange

/-- C2: the corrected resolver maps each selector as claimed —
`today` to (today, today), `yesterday` to (today-1, today-1),
`last_7_days` to (today-6, today), `last_30_days` to (today-29, today),
and `custom` to the supplied bounds when both are present and ordered,
failing with `invalidRange` when a bound is missing or out of order; in
particular, for today = 2024-06-15 the 30-day range starts 2024-05-17.
The variant in `app/main.py`, however, raises a `NameError` on every
`last_30_days` call instead of returning (today-29, today). -/
theorem resolve_date_range_spec (today s e : Date) :
    resolve_date_range .today today none none = .ok (today, today) ∧
    resolve_date_range .yesterday today none none =
      .ok (today - 1, today - 1) ∧
    resolve_date_range .last_7_days today none none =
      .ok (today - 6, today) ∧
    resolve_date_range .last_30_days today none none =
      .ok (today - 29, today) ∧
    resolve_date_range .custom today (some s) (some e) =
      (if s ≤ e then .ok (s, e) else .error .invalidRange) ∧
    resolve_date_range .custom today none (some e) =
      .error .invalidRange ∧
    resolve_date_range .custom today (some s) none =
      .error .invalidRange ∧
    resolve_date_range .custom today none none = .error .invalidRange ∧
    mkDate 2024 6 15 - 29 = mkDate 2024 5 17 ∧
    resolve_date_range .last_30_days (mkDate 2024 6 15) none none =
      .ok (mkDate 2024 5 17, mkDate 2024 6 15) ∧
    resolve_date_range_main .last_30_days today none none =
      .error .nameError := by
  have hdate : mkDate 2024 6 15 - 29 = mkDate 2024 5 17 := by decide
  refine ⟨rfl, rfl, rfl, rfl, ?_, rfl, rfl, rfl, hdate, ?_, rfl⟩
  · simp only [resolve_date_range]
    by_cases h : s ≤ e
    · rw [if_neg (not_lt.mpr h), if_pos h]
    · rw [if_pos (not_le.mp h), if_neg h]
  · rw [← hdate]
    rfl

/-! Reporting stubs (`app/main.py:205-320`).  Monetary and ratio values
are modelled as rationals; Python's `round(x, n)` becomes `roundTo n`. -/

/-- Embedding of Python's `round(x, ndigits)` on the values that occur
here: scale by `10 ^ ndigits`, round to the nearest integer, scale
back. -/
def roundTo (ndigits : ℕ) (x : ℚ) : ℚ :=
  ((round (x * (10 : ℚ) ^ ndigits) : ℤ) : ℚ) / (10 : ℚ) ^ ndigits

/-- The `SummaryMetrics` response model (`app/main.py:150-155`). -/
structure SummaryMetrics where
  impressions : ℕ
  clicks : ℕ
  ctr : ℚ
  revenue : ℚ
  ecpm : ℚ
deriving DecidableEq

/-- The `LocationBreakdownItem` response model
(`app/main.py:158-165`). -/
structure LocationBreakdownItem where
  country : String
  region : Option String
  impressions : ℕ
  clicks : ℕ
  ctr : ℚ
  revenue : ℚ
  ecpm : ℚ
deriving DecidableEq

/-- The `TimeseriesPoint` response model (`app/main.py:168-174`). -/
structure TimeseriesPoint where
  date : Date
  impressions : ℕ
  clicks : ℕ
  ctr : ℚ
  revenue : ℚ
  ecpm : ℚ
deriving DecidableEq

/-- Embedding of `fetch_summary_metrics` (`app/main.py:205-232`):
placeholder totals with the derived ctr/ecpm guarded against zero
impressions. -/
def fetch_summary_metrics : SummaryMetrics :=
  let impressions : ℕ := 100000
  let clicks : ℕ := 1200
  let revenue : ℚ := 250
  let ctr : ℚ :=
    if impressions ≠ 0 then (clicks : ℚ) / (impressions : ℚ) * 100 else 0
  let ecpm : ℚ :=
    if impressions ≠ 0 then revenue / (impressions : ℚ) * 1000 else 0
  { impressions := impressions, clicks := clicks, ctr := roundTo 3 ctr,
    revenue := roundTo 2 revenue, ecpm := roundTo 3 ecpm }

/-- Embedding of `fetch_location_breakdown` (`app/main.py:235-286`):
two hardcoded country rows with the same guarded derived metrics. -/
def fetch_location_breakdown : List LocationBreakdownItem :=
  let us_impressions : ℕ := 40000
  let us_clicks : ℕ := 500
  let us_revenue : ℚ := 120
  let pk_impressions : ℕ := 30000
  let pk_clicks : ℕ := 400
  let pk_revenue : ℚ := 60
  [{ country := "US", region := none, impressions := us_impressions,
     clicks := us_clicks,
     ctr := if us_impressions ≠ 0 then
       roundTo 3 ((us_clicks : ℚ) / (us_impressions : ℚ) * 100) else 0,
     revenue := roundTo 2 us_revenue,
     ecpm := if us_impressions ≠ 0 then
       roundTo 3 (us_revenue / (us_impressions : ℚ) * 1000) else 0 },
   { country := "PK", region := none, impressions := pk_impressions,
     clicks := pk_clicks,
     ctr := if pk_impressions ≠ 0 then
       roundTo 3 ((pk_clicks : ℚ) / (pk_impressions : ℚ) * 100) else 0,
     revenue := roundTo 2 pk_revenue,
     ecpm := if pk_impressions ≠ 0 then
       roundTo 3 (pk_revenue / (pk_impressions : ℚ) * 1000) else 0 }]

/-- Embedding of `fetch_timeseries` (`app/main.py:289-320`): one point
per day of the inclusive range, with linearly progressing placeholder
numbers and the same guarded derived metrics. -/
def fetch_timeseries (start_date end_date : Date) :
    List TimeseriesPoint :=
  let days := end_date - start_date + 1
  (List.range days.toNat).map (fun i =>
    let impressions : ℕ := 5000 + i * 200
    let clicks : ℕ := 50 + i * 3
    let revenue : ℚ := 10 + (i : ℚ) * 0.5
    let ctr : ℚ :=
      if impressions ≠ 0 then (clicks : ℚ) / (impressions : ℚ) * 100 else 0
    let ecpm : ℚ :=
      if impressions ≠ 0 then revenue / (impressions : ℚ) * 1000 else 0
    { date := start_date + (i : Int), impressions := impressions,
      clicks := clicks, ctr := roundTo 3 ctr,
      revenue := roundTo 2 revenue, ecpm := roundTo 3 ecpm })

/-- The derived-metric contract as the spec states it (§4.4):
`ctr = clicks / impressions * 100`, 0 when impressions is 0, rounded to
3 decimal places. -/
def ctr_contract (impressions clicks : ℕ) : ℚ :=
  if impressions = 0 then 0
  else roundTo 3 ((clicks : ℚ) / (impressions : ℚ) * 100)

/-- The derived-metric contract as the spec states it (§4.4):
`ecpm = revenue / impressions * 1000`, 0 when impressions is 0, rounded
to 3 decimal places. -/
def ecpm_contract (impressions : ℕ) (revenue : ℚ) : ℚ :=
  if impressions = 0 then 0
  else roundTo 3 (revenue / (impressions : ℚ) * 1000)

theorem roundTo_timeseries_revenue (i : ℕ) :
    roundTo 2 (10 + (i : ℚ) * 0.5) = 10 + (i : ℚ) * 0.5 := by
  unfold roundTo
  have h : (10 + (i : ℚ) * 0.5) * (10 : ℚ) ^ 2 =
      ((1000 + 50 * i : ℤ) : ℚ) := by
    push_cast
    ring
  rw [h, round_intCast]
  push_cast
  ring

/-- C6: every derived metric the reporting stubs emit satisfies the
contract `ctr = clicks / impressions * 100` and
`ecpm = revenue / impressions * 1000`, each 0 when impressions is 0 (no
division by zero), ctr and ecpm rounded to 3 decimal places and revenue
to 2; in particular impressions = 40000, clicks = 500, revenue = 120
gives ctr = 1.25 and ecpm = 3. -/
theorem metrics_follow_contract :
    ctr_contract 40000 500 = 1.25 ∧
    ecpm_contract 40000 120 = 3 ∧
    (∀ c : ℕ, ctr_contract 0 c = 0) ∧
    (∀ r : ℚ, ecpm_contract 0 r = 0) ∧
    fetch_summary_metrics.ctr = ctr_contract 100000 1200 ∧
    fetch_summary_metrics.ecpm = ecpm_contract 100000 250 ∧
    fetch_summary_metrics.revenue = roundTo 2 250 ∧
    fetch_location_breakdown =
      [⟨"US", none, 40000, 500, ctr_contract 40000 500, roundTo 2 120,
        ecpm_contract 40000 120⟩,
       ⟨"PK", none, 30000, 400, ctr_contract 30000 400, roundTo 2 60,
        ecpm_contract 30000 60⟩] ∧
    ctr_contract 30000 400 = 1.333 ∧
    ecpm_contract 30000 60 = 2 ∧
    roundTo 2 120 = 120 ∧
    (∀ s e : Date, (fetch_timeseries s e).all
      (fun p => p.ctr == ctr_contract p.impressions p.clicks &&
        p.ecpm == ecpm_contract p.impressions p.revenue) = true) := by
  refine ⟨?_, ?_, ?_, ?_, ?_, ?_, rfl, ?_, ?_, ?_, ?_, ?_⟩
  · norm_num [ctr_contract, roundTo, round_eq]
  · norm_num [ecpm_contract, roundTo, round_eq]
  · intro c; simp [ctr_contract]
  · intro r; simp [ecpm_contract]
  · norm_num [fetch_summary_metrics, ctr_contract]
  · norm_num [fetch_summary_metrics, ecpm_contract]
  · norm_num [fetch_location_breakdown, ctr_contract, ecpm_contract]
  · norm_num [ctr_contract, roundTo, round_eq]
  · norm_num [ecpm_contract, roundTo, round_eq]
  · norm_num [roundTo, round_eq]
  · intro s e
    rw [List.all_eq_true]
    intro p hp
    simp only [fetch_timeseries, List.mem_map, List.mem_range] at hp
    obtain ⟨i, hi, rfl⟩ := hp
    have h0 : (5000 + i * 200 : ℕ) ≠ 0 := by omega
    simp only [Bool.and_eq_true, beq_iff_eq]
    constructor
    · simp [ctr_contract, h0]
    · rw [roundTo_timeseries_revenue]
      simp [ecpm_contract, h0]
